import Mathlib

/-!
Verification of the KPI aggregation and leaderboard-ranking engine of the
Business Operations Bot (src/scripts/analyzes.py, src/bot/app.py).

The pandas dataframes are embedded shallowly: a raw table is a list of rows
over the columns the engine reads, together with the schema flags recording
which optional columns exist; scalar cells are exact rationals, text, datetime
values, or the missing marker (NaN/NaT). Machine floats are modelled as exact
rationals; `Series.round(2)` is exact half-even rounding at two decimals.
-/

/- The Batteries rational arithmetic is sealed for rewriting hygiene; reopen
it so that concrete tables evaluate by `decide`/`rfl`. Kernel reduction is
unaffected by the marker; proofs still pass the kernel unchanged. -/
attribute [local semireducible] Rat.add Rat.sub Rat.mul Rat.inv Rat.ofScientific

deriving instance DecidableEq for Except

namespace BusinessOps

/-- One scalar cell of a loaded pandas table: a numeric value (int/float,
modelled exactly as a rational), a text value, a datetime value (payload: the
underlying epoch/ordinal quantity), or the missing marker (NaN/NaT/None). -/
inductive RawVal where
  | num (q : ℚ)
  | str (s : String)
  | date (d : ℚ)
  | missing
deriving DecidableEq

/-- Elementwise `Series.notna`: everything except the missing marker. -/
def RawVal.notna : RawVal → Bool
  | .missing => false
  | _ => true

/-- Elementwise pandas comparison `x != 0`: a numeric cell equals 0 only by
value; text, datetimes and the missing marker (NaN) never equal the number 0. -/
def RawVal.neZero : RawVal → Bool
  | .num q => decide (q ≠ 0)
  | _ => true

/-- Elementwise pandas comparison `x != ''`: only a text cell can equal the
empty string. -/
def RawVal.neEmptyStr : RawVal → Bool
  | .str s => decide (s ≠ "")
  | _ => true

/-- The cell is numeric or missing (the shape every `to_numeric(..., errors=
'coerce')` result has). -/
def RawVal.isNumOrMissing : RawVal → Bool
  | .num _ => true
  | .missing => true
  | _ => false

/-- The cell is a datetime or missing (the shape every `to_datetime(...,
errors='coerce')` result has). -/
def RawVal.isDateOrMissing : RawVal → Bool
  | .date _ => true
  | .missing => true
  | _ => false

/-- The numeric content of a cell, for aggregation: pandas `mean` skips
missing values. (After cleaning, every averaged column holds only numeric or
missing cells.) -/
def RawVal.asNum : RawVal → Option ℚ
  | .num q => some q
  | _ => none

/-- The whitespace characters of the regex class `\s`. -/
def isSpaceChar (c : Char) : Bool :=
  c = ' ' || c = '\t' || c = '\n' || c = '\r' || c = '\x0b' || c = '\x0c'

/-- `str.replace(r'[$,\s]', '', regex=True)` on one string: drop dollar
signs, commas and whitespace. -/
def stripCurrency (s : String) : String :=
  String.mk (s.data.filter (fun c => !(c = '$' || c = ',' || isSpaceChar c)))

/-- `str.replace(r'[\s,%]', '', regex=True)` on one string: drop whitespace,
commas and percent signs. -/
def stripPercent (s : String) : String :=
  String.mk (s.data.filter (fun c => !(c = '%' || c = ',' || isSpaceChar c)))

/-- Numeric value of a digit string (only applied to all-digit strings). -/
def digitsVal (l : List Char) : ℕ :=
  l.foldl (fun a c => a * 10 + (c.toNat - '0'.toNat)) 0

/-- Parse an optionally signed plain decimal literal (digits with at most one
point, as in "0", "12.5", "-3.", ".25"): the fragment of Python float parsing
this dataset exercises. Anything else — empty string, stray characters,
exponent forms — is a coercion failure. -/
def parseDecimal? (s : String) : Option ℚ :=
  let body := s.data
  let signAndDigits : ℚ × List Char :=
    match body with
    | '-' :: rest => (-1, rest)
    | '+' :: rest => (1, rest)
    | _ => (1, body)
  let sign := signAndDigits.1
  let digitsPart := signAndDigits.2
  let ip := digitsPart.takeWhile (fun c => c != '.')
  let rest := digitsPart.dropWhile (fun c => c != '.')
  let fr? : Option (List Char) :=
    match rest with
    | [] => some []
    | _ :: r => if r.contains '.' then none else some r
  match fr? with
  | none => none
  | some fr =>
    if (ip ++ fr).isEmpty then none
    else if (ip ++ fr).all Char.isDigit then
      some (sign * ((digitsVal ip : ℚ) + (digitsVal fr : ℚ) / (10 : ℚ) ^ fr.length))
    else none

/-- One cell of `pd.to_numeric(col.astype(str).str.replace(r'[$,\s]', '',
regex=True), errors='coerce')`: numeric cells round-trip through their string
form, missing prints as "nan" and coerces back to NaN, datetime text fails
coercion, and text is stripped then parsed (NaN on failure). -/
def toNumericStripCurrency : RawVal → RawVal
  | .num q => .num q
  | .str s =>
    match parseDecimal? (stripCurrency s) with
    | some q => .num q
    | none => .missing
  | .date _ => .missing
  | .missing => .missing

/-- Same with the `[\s,%]` stripping used for the growth column. -/
def toNumericStripPercent : RawVal → RawVal
  | .num q => .num q
  | .str s =>
    match parseDecimal? (stripPercent s) with
    | some q => .num q
    | none => .missing
  | .date _ => .missing
  | .missing => .missing

/-- Split a character list at dashes (each dash separates two groups). -/
def splitDash (l : List Char) : List (List Char) :=
  l.foldr
    (fun c acc =>
      if c = '-' then [] :: acc
      else
        match acc with
        | [] => [[c]]
        | h :: t => (c :: h) :: t)
    [[]]

/-- Minimal `YYYY-MM-DD` text parse for the datetime model (encoded as an
ordinal-like number); other text forms coerce to missing. -/
def parseIsoDate? (s : String) : Option ℚ :=
  match splitDash s.data with
  | [y, m, d] =>
    if !y.isEmpty && y.all Char.isDigit &&
       !m.isEmpty && m.all Char.isDigit &&
       !d.isEmpty && d.all Char.isDigit then
      some ((digitsVal y : ℚ) * 10000 + (digitsVal m : ℚ) * 100 + (digitsVal d : ℚ))
    else none
  | _ => none

/-- One cell of `pd.to_datetime(col, errors='coerce')`: datetimes pass
through, numerics are epoch offsets, ISO text parses, everything else
coerces to NaT (missing). -/
def toDatetime : RawVal → RawVal
  | .date d => .date d
  | .num q => .date q
  | .str s =>
    match parseIsoDate? s with
    | some d => .date d
    | none => .missing
  | .missing => .missing

/-- One row of the loaded KPI table, restricted to the columns the engine
reads: 'Shop', 'WeekEndingCY', 'Sales / Day', 'CPD - PY',
'Customers Repeat % - CY', 'BayTime', 'CPD', 'Net Sales - YoY %'.
`bayTime` and `cpd` are numeric-or-missing, as `read_csv` yields for the
numeric report columns; the engine only ever averages them. The dropped
report columns (High.Mileage..., Emission...) are never read and are not
modelled. -/
structure RawRow where
  shop : String
  weekEndingCY : RawVal
  salesPerDay : RawVal
  cpdPY : RawVal
  customersRepeatPct : RawVal
  bayTime : Option ℚ
  cpd : Option ℚ
  netSalesYoY : RawVal
deriving DecidableEq

/-- A loaded table: its rows plus the schema flags saying which optional
columns exist. Column presence (not per-cell presence) drives the
availability guards of the aggregators and the growth-cleaning step. -/
structure RawTable where
  rows : List RawRow
  hasBayTime : Bool
  hasCPD : Bool
  hasYoY : Bool
deriving DecidableEq

/-- The row stages of `clean_and_process_kpi` (src/scripts/analyzes.py lines
11-43) in source order: datetime-coerce 'WeekEndingCY'; filter 'Sales / Day'
by `notna`, `!= 0`, `!= ''` (on the raw, still-uncoerced values); strip
currency formatting and numeric-coerce 'Sales / Day'; filter `CPD - PY != 0`
and `Customers Repeat % - CY != 0` (the source states the first conjunct
twice; conjunction is idempotent); drop the unused report columns (outside
the model: a no-op); numeric-coerce 'Net Sales - YoY %' when that column
exists. -/
def clean_rows (hasYoY : Bool) (rows : List RawRow) : List RawRow :=
  let r1 := rows.map (fun r => { r with weekEndingCY := toDatetime r.weekEndingCY })
  let r2 := r1.filter (fun r => r.salesPerDay.notna)
  let r3 := r2.filter (fun r => r.salesPerDay.neZero)
  let r4 := r3.filter (fun r => r.salesPerDay.neEmptyStr)
  let r5 := r4.map (fun r => { r with salesPerDay := toNumericStripCurrency r.salesPerDay })
  let r6 := r5.filter (fun r => r.cpdPY.neZero && r.customersRepeatPct.neZero)
  if hasYoY then
    r6.map (fun r => { r with netSalesYoY := toNumericStripPercent r.netSalesYoY })
  else r6

/-- The full pipeline: the row stages above; the schema (and every column the
model keeps) is unchanged. -/
def clean_and_process_kpi (t : RawTable) : RawTable :=
  { t with rows := clean_rows t.hasYoY t.rows }

/-- Round to the nearest integer, ties to even: the rounding of IEEE floats
used by `Series.round`. -/
def roundHalfEven (q : ℚ) : ℤ :=
  let f := ⌊q⌋
  let r := q - f
  if r < 1 / 2 then f
  else if 1 / 2 < r then f + 1
  else if f % 2 = 0 then f else f + 1

/-- `Series.round(2)`. -/
def round2 (q : ℚ) : ℚ := (roundHalfEven (q * 100) : ℚ) / 100

/-- Lexicographic code-point comparison of two character lists (how Python
and pandas compare shop-name strings). -/
def charListLe : List Char → List Char → Bool
  | [], _ => true
  | _ :: _, [] => false
  | a :: as, b :: bs => if a = b then charListLe as bs else decide (a.toNat < b.toNat)

/-- String comparison used for group keys, as a relation. -/
def StrLe (a b : String) : Prop := charListLe a.data b.data = true

instance : DecidableRel StrLe := fun a b =>
  inferInstanceAs (Decidable (charListLe a.data b.data = true))

/-- The group keys of `groupby('Shop')`: each distinct shop once, sorted
ascending (groupby sorts its keys). -/
def sortedShops (l : List String) : List String :=
  List.insertionSort StrLe l.dedup

/-- The cell values of one shop's group in a column (in row order). -/
def groupVals (rows : List RawRow) (f : RawRow → Option ℚ) (s : String) : List ℚ :=
  (rows.filter (fun r => r.shop == s)).filterMap f

/-- `mean().round(2)` of one group: the NaN-skipping arithmetic mean; a group
with no numeric value averages to NaN. -/
def meanRound2 (l : List ℚ) : Option ℚ :=
  if l.isEmpty then none else some (round2 (l.sum / l.length))

/-- `df.groupby('Shop')[col].mean().round(2).reset_index()`: one row per
distinct shop, keys ascending. -/
def groupMeanRound2 (rows : List RawRow) (f : RawRow → Option ℚ) :
    List (String × Option ℚ) :=
  (sortedShops (rows.map RawRow.shop)).map (fun s => (s, meanRound2 (groupVals rows f s)))

/-- Boolean form of the `sort_values(ascending=False)` ordering on mean
rows: larger value first, missing (NaN) sorts last (`na_position='last'`). -/
def descValB (a b : String × Option ℚ) : Bool :=
  match a.2, b.2 with
  | some x, some y => decide (y ≤ x)
  | none, some _ => false
  | _, _ => true

/-- Boolean form of the ascending `sort_values()` ordering, missing last. -/
def ascValB (a b : String × Option ℚ) : Bool :=
  match a.2, b.2 with
  | some x, some y => decide (x ≤ y)
  | none, some _ => false
  | _, _ => true

/-- Descending value order (missing last) as a relation. -/
def DescLe (a b : String × Option ℚ) : Prop := descValB a b = true

/-- Ascending value order (missing last) as a relation. -/
def AscLe (a b : String × Option ℚ) : Prop := ascValB a b = true

instance : DecidableRel DescLe := fun a b => inferInstanceAs (Decidable (descValB a b = true))

instance : DecidableRel AscLe := fun a b => inferInstanceAs (Decidable (ascValB a b = true))

/-- A metric result frame: either `pd.DataFrame()` — the no-column frame the
availability guards return — or a ranked frame of (Shop, value) rows. -/
inductive MetricDF (α : Type) where
  | unavailable
  | ranked (rows : List (String × α))
deriving DecidableEq

/-- `analyze_highest_revenue` (src/scripts/analyzes.py lines 45-57): mean
daily sales by shop, descending. No availability guard: cleaning guarantees
the column. -/
def analyze_highest_revenue (t : RawTable) : MetricDF (Option ℚ) :=
  .ranked (List.insertionSort DescLe
    (groupMeanRound2 t.rows (fun r => r.salesPerDay.asNum)))

/-- `analyze_lowest_baytime` (lines 59-73): guard on the 'BayTime' column,
then mean bay time by shop, ascending. -/
def analyze_lowest_baytime (t : RawTable) : MetricDF (Option ℚ) :=
  if !t.hasBayTime then .unavailable
  else .ranked (List.insertionSort AscLe
    (groupMeanRound2 t.rows (fun r => r.bayTime)))

/-- `analyze_highest_cpd` (lines 75-89): guard on the 'CPD' column, then mean
CPD by shop, descending. -/
def analyze_highest_cpd (t : RawTable) : MetricDF (Option ℚ) :=
  if !t.hasCPD then .unavailable
  else .ranked (List.insertionSort DescLe
    (groupMeanRound2 t.rows (fun r => r.cpd)))

/-- Python `str()` of a float value carrying at most two decimal places
(every aggregated mean is rounded to two places): integer part, a point, the
fractional digits with trailing zeros trimmed but at least one digit
("110.0", "12.5", "3.05", "-2.25"). -/
def floatStr (q : ℚ) : String :=
  let sign := if q < 0 then "-" else ""
  let n : ℤ := ⌊|q| * 100⌋
  let i := n / 100
  let f := n % 100
  if f = 0 then sign ++ toString i ++ ".0"
  else if f % 10 = 0 then sign ++ toString i ++ "." ++ toString (f / 10)
  else if f < 10 then sign ++ toString i ++ ".0" ++ toString f
  else sign ++ toString i ++ "." ++ toString f

/-- `astype(str)` of one mean cell: NaN prints as "nan". -/
def valueStr : Option ℚ → String
  | some q => floatStr q
  | none => "nan"

/-- `analyze_highest_growth` (lines 91-106): guard on the 'Net Sales - YoY %'
column, mean by shop, sort descending on the numeric mean, then render the
display label `str(value) + '%'` and keep only Shop and Growth.Label. -/
def analyze_highest_growth (t : RawTable) : MetricDF String :=
  if !t.hasYoY then .unavailable
  else
    .ranked ((List.insertionSort DescLe
      (groupMeanRound2 t.rows (fun r => r.netSalesYoY.asNum))).map
        (fun p => (p.1, valueStr p.2 ++ "%")))

/-- `count_top` (lines 108-112): the shops of the first N rows of one metric
frame, one appearance point each. Selecting the 'Shop' column of the
no-column unavailable frame raises `KeyError`. -/
def count_top {α : Type} (m : MetricDF α) (n : ℕ) : Except String (List String) :=
  match m with
  | .unavailable => .error "KeyError: Shop"
  | .ranked rows => .ok ((rows.take n).map Prod.fst)

/-- One row of the final leaderboard. -/
structure LBRow where
  shop : String
  top1 : ℕ
  top3 : ℕ
  top5 : ℕ
deriving DecidableEq

/-- Boolean form of the `sort_values(by=['Top1', 'Top3', 'Top5'],
ascending=[False, False, False])` ordering: the lexicographically larger
count triple comes first. A multi-column `sort_values` is a stable
lexicographic sort. -/
def lbLeB (a b : LBRow) : Bool :=
  decide (b.top1 < a.top1) ||
    (decide (b.top1 = a.top1) &&
      (decide (b.top3 < a.top3) ||
        (decide (b.top3 = a.top3) && decide (b.top5 ≤ a.top5))))

/-- The leaderboard sort order as a relation. -/
def LBLe (a b : LBRow) : Prop := lbLeB a b = true

instance : DecidableRel LBLe := fun a b => inferInstanceAs (Decidable (lbLeB a b = true))

/-- The concatenated appearance pool of one tier: the top-n shops of the four
metric frames (`pd.concat` of the four `count_top` results), assuming all
four frames have a Shop column. -/
def pool_shops {α β γ δ : Type} (r : List (String × α)) (b : List (String × β))
    (c : List (String × γ)) (g : List (String × δ)) (n : ℕ) : List String :=
  (r.take n).map Prod.fst ++ (b.take n).map Prod.fst ++
    (c.take n).map Prod.fst ++ (g.take n).map Prod.fst

/-- The three-way outer join before the final sort (lines 140-143): the index
is the sorted union of the pools' shops (`groupby('Shop').sum()` sorts keys;
`join(..., how='outer')` unions sorted indexes); a shop's count for a tier is
its number of appearance rows in that tier's pool, which `fillna(0)` turns
into 0 when the shop is absent from the pool. -/
def leaderboard_unsorted (t1 t3 t5 : List String) : List LBRow :=
  (sortedShops (t1 ++ t3 ++ t5)).map (fun s => ⟨s, t1.count s, t3.count s, t5.count s⟩)

/-- The joined table after the final stable sort (lines 139-145). -/
def leaderboard_of (t1 t3 t5 : List String) : List LBRow :=
  List.insertionSort LBLe (leaderboard_unsorted t1 t3 t5)

/-- `build_leaderboard` (lines 114-146). When all four frames are ranked, the
twelve `count_top` calls succeed and the result is the sorted outer join of
the three tier pools; when any frame is the no-column unavailable frame, the
first failing `count_top` raises — and since every failure path raises the
same `KeyError`, the source's propagation of the first exception collapses to
the single error branch of the match. -/
def build_leaderboard {α β γ δ : Type} (rev : MetricDF α) (bay : MetricDF β)
    (cpdM : MetricDF γ) (gro : MetricDF δ) : Except String (List LBRow) :=
  match rev, bay, cpdM, gro with
  | .ranked r, .ranked b, .ranked c, .ranked g =>
    .ok (leaderboard_of (pool_shops r b c g 1) (pool_shops r b c g 3) (pool_shops r b c g 5))
  | _, _, _, _ => .error "KeyError: Shop"

/-- Python `str.lower()`. -/
def strToLower (s : String) : String := String.mk (s.data.map Char.toLower)

/-- Python `str.endswith(suffix)`. -/
def strEndsWith (s suffix : String) : Bool := suffix.data.isSuffixOf s.data

/-- `load_data` of src/bot/app.py (lines 28-39): extension dispatch inside a
`try`/`except` that logs any failure and returns `None`. The two file reads
are parameters of the model: `.ok` a loaded table, `.error ()` a raised I/O
or parse failure; the unrecognized-extension `ValueError` is raised inside
the same `try` and is caught by the same `except`. -/
def load_data (filename : String) (readCsv readExcel : Except Unit RawTable) :
    Option RawTable :=
  let lower := strToLower filename
  let attempt : Except Unit RawTable :=
    if strEndsWith lower ".csv" then readCsv
    else if strEndsWith lower ".xlsx" || strEndsWith lower ".xls" then readExcel
    else .error ()
  match attempt with
  | .ok t => some t
  | .error _ => none

/-- The load check of `respond` (src/bot/app.py lines 126-129): with no
table the bot answers the fixed failure message and touches no analysis
function; otherwise it cleans the table and hands it to the phrase dispatch,
abstracted here as a function of the cleaned table. -/
def respond_message (df : Option RawTable) (dispatch : RawTable → String) : String :=
  match df with
  | none => "❌ Failed to load data."
  | some t => dispatch (clean_and_process_kpi t)

/-! Concrete tables and frames used by the counterexamples and witnesses. -/

/-- A well-formed record: numeric nonzero sales, nonzero filter fields. -/
def goodRow : RawRow :=
  { shop := "A", weekEndingCY := .missing, salesPerDay := .num 100, cpdPY := .num 5,
    customersRepeatPct := .num 3, bayTime := none, cpd := none, netSalesYoY := .missing }

/-- The same record with the currency-formatted zero sales cell "$0". -/
def zeroDollarRow : RawRow := { goodRow with salesPerDay := .str "$0" }

/-- A one-record table whose raw 'Sales / Day' cell is the text "$0". -/
def tableZeroDollar : RawTable := { rows := [zeroDollarRow], hasBayTime := false, hasCPD := false, hasYoY := false }

/-- A one-record well-formed table. -/
def tableGood : RawTable := { rows := [goodRow], hasBayTime := false, hasCPD := false, hasYoY := false }

/-- A record whose raw growth cell is the text "12.5 %". -/
def growthRow : RawRow := { goodRow with netSalesYoY := .str "12.5 %" }

/-- A one-record table carrying the 'Net Sales - YoY %' column. -/
def growthTable : RawTable := { rows := [growthRow], hasBayTime := false, hasCPD := false, hasYoY := true }

/-- Shop A, sales 120. -/
def rowA120 : RawRow := { goodRow with salesPerDay := .num 120 }

/-- Shop B, sales 50. -/
def rowB50 : RawRow := { goodRow with shop := "B", salesPerDay := .num 50 }

/-- The revenue scenario table: shop A with sales 100 and 120, shop B with 50. -/
def scenTable : RawTable := { rows := [goodRow, rowA120, rowB50], hasBayTime := false, hasCPD := false, hasYoY := false }

/-- A revenue ranking of six shops (shop "F" is ranked sixth). -/
def sixShopRevenue : MetricDF (Option ℚ) :=
  .ranked [("A", some 6), ("B", some 5), ("C", some 4), ("D", some 3), ("E", some 2), ("F", some 1)]

/-- An available metric frame with zero data rows (not the unavailable frame). -/
def emptyRankedQ : MetricDF (Option ℚ) := .ranked []

/-- An available growth frame with zero data rows. -/
def emptyRankedS : MetricDF String := .ranked []

/-- A record carrying values in every optional column. -/
def rowAll : RawRow :=
  { shop := "A", weekEndingCY := .missing, salesPerDay := .num 100, cpdPY := .num 5,
    customersRepeatPct := .num 3, bayTime := some 30, cpd := some 20, netSalesYoY := .num 10 }

/-- A one-record table whose schema has all three optional columns. -/
def tableAll : RawTable :=
  { rows := [rowAll], hasBayTime := true, hasCPD := true, hasYoY := true }

/-! ## Helper lemmas -/

theorem toNumericStripCurrency_isNumOrMissing (v : RawVal) :
    (toNumericStripCurrency v).isNumOrMissing = true := by
  cases v with
  | str s =>
    cases h : parseDecimal? (stripCurrency s) <;>
      simp [toNumericStripCurrency, h, RawVal.isNumOrMissing]
  | _ => rfl

theorem toNumericStripPercent_isNumOrMissing (v : RawVal) :
    (toNumericStripPercent v).isNumOrMissing = true := by
  cases v with
  | str s =>
    cases h : parseDecimal? (stripPercent s) <;>
      simp [toNumericStripPercent, h, RawVal.isNumOrMissing]
  | _ => rfl

theorem toDatetime_isDateOrMissing (v : RawVal) :
    (toDatetime v).isDateOrMissing = true := by
  cases v with
  | str s =>
    cases h : parseIsoDate? s <;> simp [toDatetime, h, RawVal.isDateOrMissing]
  | _ => rfl

theorem toNumericStripCurrency_id (v : RawVal) (h : v.isNumOrMissing = true) :
    toNumericStripCurrency v = v := by
  cases v <;> simp_all [RawVal.isNumOrMissing, toNumericStripCurrency]

theorem toNumericStripPercent_id (v : RawVal) (h : v.isNumOrMissing = true) :
    toNumericStripPercent v = v := by
  cases v <;> simp_all [RawVal.isNumOrMissing, toNumericStripPercent]

theorem toDatetime_id (v : RawVal) (h : v.isDateOrMissing = true) :
    toDatetime v = v := by
  cases v <;> simp_all [RawVal.isDateOrMissing, toDatetime]

/-- Inserting into a sorted-so-far list commutes with filtering by a
predicate whose holders are mutually `r`-comparable: the basis of stability. -/
theorem filter_orderedInsert {α : Type} (r : α → α → Prop) [DecidableRel r]
    (p : α → Bool) (hp : ∀ a b, p a = true → p b = true → r a b) (a : α) :
    ∀ l : List α,
      (l.orderedInsert r a).filter p =
        if p a then a :: l.filter p else l.filter p := by
  intro l
  induction l with
  | nil =>
    simp only [List.orderedInsert, List.filter_cons, List.filter_nil]
  | cons b l ih =>
    by_cases hr : r a b
    · by_cases hpa : p a = true <;>
        simp [List.orderedInsert, hr, List.filter_cons, hpa]
    · by_cases hpa : p a = true
      · have hpb : ¬ p b = true := fun hpb => hr (hp a b hpa hpb)
        simp [List.orderedInsert, hr, List.filter_cons, hpa, hpb, ih]
      · by_cases hpb : p b = true <;>
          simp [List.orderedInsert, hr, List.filter_cons, hpa, hpb, ih]

/-- Insertion sort is stable: the sublist of rows satisfying a predicate
whose holders are mutually `r`-comparable (for instance: rows with one fixed
sort key) is unchanged. -/
theorem filter_insertionSort {α : Type} (r : α → α → Prop) [DecidableRel r]
    (p : α → Bool) (hp : ∀ a b, p a = true → p b = true → r a b) :
    ∀ l : List α, (l.insertionSort r).filter p = l.filter p := by
  intro l
  induction l with
  | nil => rfl
  | cons a l ih =>
    by_cases hpa : p a = true <;>
      simp [List.insertionSort, filter_orderedInsert r p hp, hpa, List.filter_cons, ih]

theorem sortedShops_nodup (l : List String) : (sortedShops l).Nodup :=
  (List.perm_insertionSort StrLe l.dedup).symm.nodup (List.nodup_dedup l)

theorem mem_sortedShops {l : List String} {s : String} :
    s ∈ sortedShops l ↔ s ∈ l :=
  (List.mem_insertionSort StrLe).trans List.mem_dedup

/-- A list built by mapping over distinct keys has exactly one element per
present key, none per absent key. -/
theorem length_filter_map_keys {β : Type} (mk : String → β) (key : β → String)
    (hkey : ∀ s, key (mk s) = s) :
    ∀ (keys : List String), keys.Nodup → ∀ s : String,
      ((keys.map mk).filter (fun x => key x == s)).length =
        if s ∈ keys then 1 else 0 := by
  intro keys hnd s
  induction keys with
  | nil => simp
  | cons k ks ih =>
    rw [List.nodup_cons] at hnd
    rcases hnd with ⟨hk, hnd'⟩
    by_cases hsk : k = s
    · subst hsk
      simp only [List.map_cons, List.filter_cons, hkey, beq_self_eq_true, if_pos,
        List.length_cons, List.mem_cons, true_or, if_true]
      have h0 : ((ks.map mk).filter (fun x => key x == k)).length = 0 := by
        rw [ih hnd', if_neg hk]
      omega
    · have : (key (mk k) == s) = false := by
        rw [hkey]; exact beq_eq_false_iff_ne.mpr hsk
      simp only [List.map_cons, List.filter_cons, this, Bool.false_eq_true, if_false,
        List.mem_cons]
      rw [ih hnd']
      by_cases hmem : s ∈ ks
      · rw [if_pos hmem, if_pos (Or.inr hmem)]
      · rw [if_neg hmem, if_neg]
        rintro (h | h)
        · exact hsk h.symm
        · exact hmem h

theorem descValB_total (a b : String × Option ℚ) :
    descValB a b = true ∨ descValB b a = true := by
  rcases a with ⟨s, _ | x⟩ <;> rcases b with ⟨t, _ | y⟩ <;>
    simp [descValB, decide_eq_true_iff]
  exact le_total y x

theorem descValB_trans (a b c : String × Option ℚ) (h1 : descValB a b = true)
    (h2 : descValB b c = true) : descValB a c = true := by
  rcases a with ⟨s, _ | x⟩ <;> rcases b with ⟨t, _ | y⟩ <;> rcases c with ⟨u, _ | z⟩ <;>
    simp_all [descValB, decide_eq_true_iff]
  exact le_trans h2 h1

instance : IsTotal (String × Option ℚ) DescLe := ⟨descValB_total⟩

instance : IsTrans (String × Option ℚ) DescLe := ⟨descValB_trans⟩

theorem ascValB_total (a b : String × Option ℚ) :
    ascValB a b = true ∨ ascValB b a = true := by
  rcases a with ⟨s, _ | x⟩ <;> rcases b with ⟨t, _ | y⟩ <;>
    simp [ascValB, decide_eq_true_iff]
  exact le_total x y

theorem ascValB_trans (a b c : String × Option ℚ) (h1 : ascValB a b = true)
    (h2 : ascValB b c = true) : ascValB a c = true := by
  rcases a with ⟨s, _ | x⟩ <;> rcases b with ⟨t, _ | y⟩ <;> rcases c with ⟨u, _ | z⟩ <;>
    simp_all [ascValB, decide_eq_true_iff]
  exact le_trans h1 h2

instance : IsTotal (String × Option ℚ) AscLe := ⟨ascValB_total⟩

instance : IsTrans (String × Option ℚ) AscLe := ⟨ascValB_trans⟩

theorem LBLe_iff (a b : LBRow) :
    LBLe a b ↔ b.top1 < a.top1 ∨ (b.top1 = a.top1 ∧
      (b.top3 < a.top3 ∨ (b.top3 = a.top3 ∧ b.top5 ≤ a.top5))) := by
  simp [LBLe, lbLeB, Bool.or_eq_true, Bool.and_eq_true, decide_eq_true_iff]

instance : IsTotal LBRow LBLe :=
  ⟨fun a b => by rw [LBLe_iff, LBLe_iff]; omega⟩

instance : IsTrans LBRow LBLe :=
  ⟨fun a b c h1 h2 => by rw [LBLe_iff] at *; omega⟩

/-- Every record retained by the cleaning pipeline has a datetime-coerced
week field, a numeric-coerced (numeric-or-missing) sales field, filter fields
that are not numeric zero, and — when the growth column exists — a
numeric-coerced growth field. -/
theorem clean_rows_invariant (hasYoY : Bool) (rows : List RawRow) (r : RawRow)
    (h : r ∈ clean_rows hasYoY rows) :
    r.weekEndingCY.isDateOrMissing = true ∧
    r.salesPerDay.isNumOrMissing = true ∧
    r.cpdPY.neZero = true ∧
    r.customersRepeatPct.neZero = true ∧
    (hasYoY = true → r.netSalesYoY.isNumOrMissing = true) := by
  cases hasYoY with
  | false =>
    simp only [clean_rows, Bool.false_eq_true, if_false] at h
    have hcpd := (List.mem_filter.mp h).2
    have h5 := (List.mem_filter.mp h).1
    obtain ⟨r4, h4, rfl⟩ := List.mem_map.mp h5
    have h1 := (List.mem_filter.mp (List.mem_filter.mp (List.mem_filter.mp h4).1).1).1
    obtain ⟨r0, hr0, rfl⟩ := List.mem_map.mp h1
    rw [Bool.and_eq_true] at hcpd
    exact ⟨toDatetime_isDateOrMissing _, toNumericStripCurrency_isNumOrMissing _,
      hcpd.1, hcpd.2, fun hf => by cases hf⟩
  | true =>
    simp only [clean_rows, if_true] at h
    obtain ⟨r6, h6, rfl⟩ := List.mem_map.mp h
    have hcpd := (List.mem_filter.mp h6).2
    have h5 := (List.mem_filter.mp h6).1
    obtain ⟨r4, h4, rfl⟩ := List.mem_map.mp h5
    have h1 := (List.mem_filter.mp (List.mem_filter.mp (List.mem_filter.mp h4).1).1).1
    obtain ⟨r0, hr0, rfl⟩ := List.mem_map.mp h1
    rw [Bool.and_eq_true] at hcpd
    exact ⟨toDatetime_isDateOrMissing _, toNumericStripCurrency_isNumOrMissing _,
      hcpd.1, hcpd.2, fun _ => toNumericStripPercent_isNumOrMissing _⟩

theorem length_filter_groupMeanRound2 (rows : List RawRow) (f : RawRow → Option ℚ)
    (s : String) :
    ((groupMeanRound2 rows f).filter (fun p => p.1 == s)).length =
      if s ∈ rows.map RawRow.shop then 1 else 0 := by
  unfold groupMeanRound2
  rw [length_filter_map_keys (fun s => (s, meanRound2 (groupVals rows f s))) Prod.fst
    (fun _ => rfl) _ (sortedShops_nodup _) s]
  by_cases h : s ∈ rows.map RawRow.shop
  · rw [if_pos (mem_sortedShops.mpr h), if_pos h]
  · rw [if_neg (fun hc => h (mem_sortedShops.mp hc)), if_neg h]

theorem length_filter_sorted_groupMeanRound2 (le : String × Option ℚ → String × Option ℚ → Prop)
    [DecidableRel le] (rows : List RawRow) (f : RawRow → Option ℚ) (s : String) :
    ((List.insertionSort le (groupMeanRound2 rows f)).filter (fun p => p.1 == s)).length =
      if s ∈ rows.map RawRow.shop then 1 else 0 := by
  rw [((List.perm_insertionSort le (groupMeanRound2 rows f)).filter _).length_eq]
  exact length_filter_groupMeanRound2 rows f s

theorem mem_groupMeanRound2 (rows : List RawRow) (f : RawRow → Option ℚ)
    (p : String × Option ℚ) (h : p ∈ groupMeanRound2 rows f) :
    p.2 = meanRound2 (groupVals rows f p.1) := by
  unfold groupMeanRound2 at h
  obtain ⟨s, _, rfl⟩ := List.mem_map.mp h
  rfl

theorem mem_sorted_groupMeanRound2 (le : String × Option ℚ → String × Option ℚ → Prop)
    [DecidableRel le] (rows : List RawRow) (f : RawRow → Option ℚ)
    (p : String × Option ℚ) (h : p ∈ List.insertionSort le (groupMeanRound2 rows f)) :
    p.2 = meanRound2 (groupVals rows f p.1) :=
  mem_groupMeanRound2 rows f p ((List.mem_insertionSort le).mp h)

theorem count_take_le {σ : Type} (l : List (String × σ)) (s : String) {m n : ℕ}
    (h : m ≤ n) :
    ((l.take m).map Prod.fst).count s ≤ ((l.take n).map Prod.fst).count s := by
  apply List.Sublist.count_le
  apply List.Sublist.map
  have he : l.take m = (l.take n).take m := by
    rw [List.take_take, Nat.min_eq_left h]
  rw [he]
  exact List.take_sublist m (l.take n)

theorem count_pool_mono {α β γ δ : Type} (r : List (String × α)) (b : List (String × β))
    (c : List (String × γ)) (g : List (String × δ)) (s : String) {m n : ℕ} (h : m ≤ n) :
    (pool_shops r b c g m).count s ≤ (pool_shops r b c g n).count s := by
  unfold pool_shops
  simp only [List.count_append]
  have h1 := count_take_le r s h
  have h2 := count_take_le b s h
  have h3 := count_take_le c s h
  have h4 := count_take_le g s h
  omega

theorem mem_leaderboard_of (t1 t3 t5 : List String) (row : LBRow)
    (h : row ∈ leaderboard_of t1 t3 t5) :
    ∃ s, row = ⟨s, t1.count s, t3.count s, t5.count s⟩ := by
  unfold leaderboard_of leaderboard_unsorted at h
  rw [List.mem_insertionSort] at h
  obtain ⟨s, _, rfl⟩ := List.mem_map.mp h
  exact ⟨s, rfl⟩

theorem length_filter_leaderboard_of (t1 t3 t5 : List String) (s : String) :
    ((leaderboard_of t1 t3 t5).filter (fun x => x.shop == s)).length =
      if s ∈ t1 ++ t3 ++ t5 then 1 else 0 := by
  unfold leaderboard_of leaderboard_unsorted
  rw [((List.perm_insertionSort LBLe _).filter _).length_eq]
  rw [length_filter_map_keys (fun s => (⟨s, t1.count s, t3.count s, t5.count s⟩ : LBRow))
    LBRow.shop (fun _ => rfl) _ (sortedShops_nodup _) s]
  by_cases h : s ∈ t1 ++ t3 ++ t5
  · rw [if_pos (mem_sortedShops.mpr h), if_pos h]
  · rw [if_neg (fun hc => h (mem_sortedShops.mp hc)), if_neg h]

/-- A row list on which every cleaning predicate already holds and every
cleaned column is already coerced is a fixed point of the row pipeline. -/
theorem clean_rows_fixed (hasYoY : Bool) (L : List RawRow)
    (hinv : ∀ r ∈ L,
      r.weekEndingCY.isDateOrMissing = true ∧
      r.salesPerDay.isNumOrMissing = true ∧
      r.cpdPY.neZero = true ∧
      r.customersRepeatPct.neZero = true ∧
      (hasYoY = true → r.netSalesYoY.isNumOrMissing = true))
    (hs : ∀ r ∈ L, ∃ q : ℚ, r.salesPerDay = RawVal.num q ∧ q ≠ 0) :
    clean_rows hasYoY L = L := by
  simp only [clean_rows]
  have e1 : L.map (fun r => { r with weekEndingCY := toDatetime r.weekEndingCY }) = L := by
    have hc : ∀ r ∈ L,
        ({ r with weekEndingCY := toDatetime r.weekEndingCY } : RawRow) = id r :=
      fun r hr => by
        show ({ r with weekEndingCY := toDatetime r.weekEndingCY } : RawRow) = r
        rw [toDatetime_id _ (hinv r hr).1]
    rw [List.map_congr_left hc, List.map_id]
  rw [e1]
  have e2 : L.filter (fun r => r.salesPerDay.notna) = L :=
    List.filter_eq_self.mpr (fun r hr => by
      obtain ⟨q, hq, _⟩ := hs r hr
      rw [hq]; rfl)
  rw [e2]
  have e3 : L.filter (fun r => r.salesPerDay.neZero) = L :=
    List.filter_eq_self.mpr (fun r hr => by
      obtain ⟨q, hq, hq0⟩ := hs r hr
      rw [hq]
      simp [RawVal.neZero, hq0])
  rw [e3]
  have e4 : L.filter (fun r => r.salesPerDay.neEmptyStr) = L :=
    List.filter_eq_self.mpr (fun r hr => by
      obtain ⟨q, hq, _⟩ := hs r hr
      rw [hq]; rfl)
  rw [e4]
  have e5 : L.map (fun r => { r with salesPerDay := toNumericStripCurrency r.salesPerDay }) = L := by
    have hc : ∀ r ∈ L,
        ({ r with salesPerDay := toNumericStripCurrency r.salesPerDay } : RawRow) = id r :=
      fun r hr => by
        show ({ r with salesPerDay := toNumericStripCurrency r.salesPerDay } : RawRow) = r
        rw [toNumericStripCurrency_id _ (hinv r hr).2.1]
    rw [List.map_congr_left hc, List.map_id]
  rw [e5]
  have e6 : L.filter (fun r => r.cpdPY.neZero && r.customersRepeatPct.neZero) = L :=
    List.filter_eq_self.mpr (fun r hr => by
      rw [Bool.and_eq_true]
      exact ⟨(hinv r hr).2.2.1, (hinv r hr).2.2.2.1⟩)
  rw [e6]
  cases hasYoY with
  | false => rfl
  | true =>
    rw [if_pos rfl]
    have hc : ∀ r ∈ L,
        ({ r with netSalesYoY := toNumericStripPercent r.netSalesYoY } : RawRow) = id r :=
      fun r hr => by
        show ({ r with netSalesYoY := toNumericStripPercent r.netSalesYoY } : RawRow) = r
        rw [toNumericStripPercent_id _ ((hinv r hr).2.2.2.2 rfl)]
    rw [List.map_congr_left hc, List.map_id]

/-! ## Claim theorems -/

/-- C1 (counterexample): the claimed invariant fails. A raw 'Sales / Day'
cell that is the currency-formatted zero "$0" passes the raw-stage filters
(text is never equal to 0) and only then is stripped and coerced, so the
cleaned table retains a record whose sales_per_day is the numeric 0. -/
theorem C1_counterexample :
    (clean_and_process_kpi tableZeroDollar).rows.map (fun r => r.salesPerDay) =
      [RawVal.num 0] := by decide

/-- C1 (amended): every record retained by `clean_and_process_kpi` has a
numeric-coerced (numeric-or-missing) sales_per_day and cpd_py and
customer_repeat_pct cells that are not numeric zero; but sales_per_day may be
zero or missing when the raw text was a currency-formatted zero or failed
numeric coercion, and cpd_py / customer_repeat_pct may be missing. -/
theorem C1_amended_cleaned_invariant (t : RawTable) (r : RawRow)
    (h : r ∈ (clean_and_process_kpi t).rows) :
    r.salesPerDay.isNumOrMissing = true ∧
    r.cpdPY.neZero = true ∧
    r.customersRepeatPct.neZero = true := by
  have hi := clean_rows_invariant t.hasYoY t.rows r h
  exact ⟨hi.2.1, hi.2.2.1, hi.2.2.2.1⟩

/-- C1 (witness): the amended invariant evaluated on a concrete record
retained from a concrete table. -/
theorem C1_witness :
    goodRow.salesPerDay.isNumOrMissing = true ∧
    goodRow.cpdPY.neZero = true ∧
    goodRow.customersRepeatPct.neZero = true :=
  C1_amended_cleaned_invariant tableGood goodRow (by decide)

/-- C3 (counterexample): `clean_and_process_kpi` is not idempotent. On the
one-record table whose sales cell is "$0", the first run retains the record
with coerced sales 0, and the second run's `!= 0` filter then drops it. -/
theorem C3_counterexample :
    clean_and_process_kpi (clean_and_process_kpi tableZeroDollar) ≠
      clean_and_process_kpi tableZeroDollar := by decide

/-- C3 (amended): the pipeline is idempotent on every table whose retained
records carry a nonzero numeric coerced sales cell — that is, as long as no
raw sales cell is a currency-formatted zero or a coercion failure. -/
theorem C3_amended_idempotent (t : RawTable)
    (hs : ∀ r ∈ (clean_and_process_kpi t).rows,
      ∃ q : ℚ, r.salesPerDay = RawVal.num q ∧ q ≠ 0) :
    clean_and_process_kpi (clean_and_process_kpi t) = clean_and_process_kpi t := by
  have hrows : clean_rows t.hasYoY (clean_and_process_kpi t).rows =
      (clean_and_process_kpi t).rows :=
    clean_rows_fixed t.hasYoY (clean_and_process_kpi t).rows
      (fun r hr => clean_rows_invariant t.hasYoY t.rows r hr) hs
  show ({ clean_and_process_kpi t with
      rows := clean_rows (clean_and_process_kpi t).hasYoY (clean_and_process_kpi t).rows } :
      RawTable) = clean_and_process_kpi t
  have hflag : (clean_and_process_kpi t).hasYoY = t.hasYoY := rfl
  rw [hflag, hrows]

/-- C3 (witness): the amended idempotence evaluated on a concrete table with
a nonzero numeric sales cell. -/
theorem C3_witness :
    clean_and_process_kpi (clean_and_process_kpi tableGood) =
      clean_and_process_kpi tableGood :=
  C3_amended_idempotent tableGood (fun r hr => by
    have hrows : (clean_and_process_kpi tableGood).rows = [goodRow] := by decide
    rw [hrows, List.mem_singleton] at hr
    subst hr
    exact ⟨100, rfl, by norm_num⟩)

/-- C4: when the guarded optional column is absent from the table's schema,
each guarded aggregator returns the explicitly-empty no-column frame
(`pd.DataFrame()`) and raises no error (the model is a total function; the
guard returns before any column access). -/
theorem C4_guard_returns_empty (t : RawTable) :
    (t.hasBayTime = false → analyze_lowest_baytime t = .unavailable) ∧
    (t.hasCPD = false → analyze_highest_cpd t = .unavailable) ∧
    (t.hasYoY = false → analyze_highest_growth t = .unavailable) := by
  refine ⟨fun h => ?_, fun h => ?_, fun h => ?_⟩ <;>
    simp [analyze_lowest_baytime, analyze_highest_cpd, analyze_highest_growth, h]

/-- C4 (witness): the guards evaluated on a concrete table lacking all three
optional columns. -/
theorem C4_witness :
    analyze_lowest_baytime tableGood = .unavailable ∧
    analyze_highest_cpd tableGood = .unavailable ∧
    analyze_highest_growth tableGood = .unavailable :=
  ⟨(C4_guard_returns_empty tableGood).1 rfl, (C4_guard_returns_empty tableGood).2.1 rfl,
    (C4_guard_returns_empty tableGood).2.2 rfl⟩

/-- C5: contrary to the claim, `build_leaderboard` does NOT succeed on every
combination: when a metric is the explicitly-empty unavailable frame,
`count_top` selects the 'Shop' column of a frame with no columns and raises
`KeyError` (first conjunct: the failing input). A ranked metric with fewer
than N shops does contribute points for just those shops (second conjunct). -/
theorem C5_build_crash_on_unavailable :
    build_leaderboard (MetricDF.ranked [("A", some (10 : ℚ)), ("B", some (5 : ℚ))])
        (MetricDF.unavailable : MetricDF (Option ℚ)) emptyRankedQ emptyRankedS =
      .error "KeyError: Shop" ∧
    build_leaderboard (MetricDF.ranked [("A", some (10 : ℚ)), ("B", some (5 : ℚ))])
        emptyRankedQ emptyRankedQ emptyRankedS =
      .ok [⟨"A", 1, 1, 1⟩, ⟨"B", 0, 1, 1⟩] :=
  ⟨rfl, by decide⟩

/-- C9: a raw growth cell "12.5 %" is cleaned to the numeric 12.5 (percent
sign and whitespace stripped, then coerced), and `analyze_highest_growth`
renders that shop's label as the display string "12.5%". -/
theorem C9_growth_label_scenario :
    (clean_and_process_kpi growthTable).rows.map (fun r => r.netSalesYoY) =
      [RawVal.num (12.5 : ℚ)] ∧
    analyze_highest_growth (clean_and_process_kpi growthTable) =
      .ranked [("A", "12.5%")] :=
  ⟨by decide, by decide⟩

/-- C10 (counterexample): the load operation does not fail with distinct
`UnsupportedFormat` / `LoadError` signals: `load_data` catches every failure
(including its own unsupported-extension `ValueError`) and returns the same
undifferentiated `None` — here, an unrecognized extension and a failing read
of a recognized extension produce identical results. -/
theorem C10_counterexample :
    load_data "KPI_Report.txt" (.ok tableGood) (.ok tableGood) = none ∧
    load_data "KPI_Report.csv" (.error ()) (.ok tableGood) = none ∧
    load_data "KPI_Report.txt" (.ok tableGood) (.ok tableGood) =
      load_data "KPI_Report.csv" (.error ()) (.ok tableGood) :=
  ⟨by decide, by decide, by decide⟩

/-- C10 (amended): on an unrecognized extension, and on a read failure of a
recognized extension, `load_data` returns `None` (one undifferentiated
failure value, not two distinct exceptions); `respond` maps a `None` table to
the fixed failure message — never a silently-empty success — and its reply is
independent of the aggregation dispatch, so no aggregation is attempted. -/
theorem C10_amended_load_failure (filename : String)
    (readCsv readExcel : Except Unit RawTable) :
    (strEndsWith (strToLower filename) ".csv" = false →
      strEndsWith (strToLower filename) ".xlsx" = false →
      strEndsWith (strToLower filename) ".xls" = false →
      load_data filename readCsv readExcel = none) ∧
    (strEndsWith (strToLower filename) ".csv" = true →
      load_data filename (.error ()) readExcel = none) ∧
    (strEndsWith (strToLower filename) ".csv" = false →
      load_data filename readCsv (.error ()) = none) ∧
    (∀ dispatch : RawTable → String,
      respond_message none dispatch = "❌ Failed to load data.") := by
  refine ⟨fun h1 h2 h3 => ?_, fun h1 => ?_, fun h1 => ?_, fun dispatch => rfl⟩
  · simp [load_data, h1, h2, h3]
  · simp [load_data, h1]
  · by_cases h2 : strEndsWith (strToLower filename) ".xlsx" = true
    · simp [load_data, h1, h2]
    · by_cases h3 : strEndsWith (strToLower filename) ".xls" = true <;>
        simp [load_data, h1, h2, h3]

/-- C10 (witness): the amended load behaviour evaluated at concrete
filenames and reads. -/
theorem C10_witness :
    load_data "report.dat" (.ok tableGood) (.ok tableGood) = none ∧
    load_data "report.csv" (.error ()) (.ok tableGood) = none ∧
    respond_message none (fun _ => "") = "❌ Failed to load data." :=
  ⟨(C10_amended_load_failure "report.dat" (.ok tableGood) (.ok tableGood)).1
      (by decide) (by decide) (by decide),
   (C10_amended_load_failure "report.csv" (.ok tableGood) (.ok tableGood)).2.1 (by decide),
   (C10_amended_load_failure "report.csv" (.ok tableGood) (.ok tableGood)).2.2.2 _⟩

/-- Membership in a smaller tier pool implies membership in a larger one. -/
theorem mem_pool_mono {α β γ δ : Type} (r : List (String × α)) (b : List (String × β))
    (c : List (String × γ)) (g : List (String × δ)) (s : String) {m n : ℕ} (h : m ≤ n)
    (hm : s ∈ pool_shops r b c g m) : s ∈ pool_shops r b c g n := by
  have h1 : 0 < (pool_shops r b c g m).count s := List.count_pos_iff.mpr hm
  have h2 := count_pool_mono r b c g s h
  exact List.count_pos_iff.mp (lt_of_lt_of_le h1 h2)

/-- The union of the three tier pools is exactly the top-5 pool. -/
theorem mem_pool_union_iff {α β γ δ : Type} (r : List (String × α)) (b : List (String × β))
    (c : List (String × γ)) (g : List (String × δ)) (s : String) :
    s ∈ pool_shops r b c g 1 ++ pool_shops r b c g 3 ++ pool_shops r b c g 5 ↔
      s ∈ pool_shops r b c g 5 := by
  constructor
  · intro h
    rcases List.mem_append.mp h with h | h
    · rcases List.mem_append.mp h with h | h
      · exact mem_pool_mono r b c g s (by norm_num) h
      · exact mem_pool_mono r b c g s (by norm_num) h
    · exact h
  · exact fun h => List.mem_append.mpr (Or.inr h)

/-- C2 (counterexample): a shop ranked outside every top-5 window is absent
from the leaderboard. With a six-shop revenue ranking (and the other metrics
available but empty), shop "F" appears in the revenue ranking yet appears in
no leaderboard row, refuting "every shop appearing in any of the four
rankings appears exactly once". -/
theorem C2_counterexample :
    build_leaderboard sixShopRevenue emptyRankedQ emptyRankedQ emptyRankedS =
      .ok [⟨"A", 1, 1, 1⟩, ⟨"B", 0, 1, 1⟩, ⟨"C", 0, 1, 1⟩, ⟨"D", 0, 0, 1⟩, ⟨"E", 0, 0, 1⟩] ∧
    "F" ∈ [("A", some (6 : ℚ)), ("B", some 5), ("C", some 4), ("D", some 3), ("E", some 2),
        ("F", some 1)].map Prod.fst ∧
    "F" ∉ ([(⟨"A", 1, 1, 1⟩ : LBRow), ⟨"B", 0, 1, 1⟩, ⟨"C", 0, 1, 1⟩, ⟨"D", 0, 0, 1⟩,
        ⟨"E", 0, 0, 1⟩].map LBRow.shop) :=
  ⟨by decide, by decide, by decide⟩

/-- C2 (amended): every shop appearing in the TOP-5 WINDOW of any of the four
rankings appears exactly once as a leaderboard row (zero rows for any other
shop), and each row's tier counts are exactly the shop's appearance counts in
that tier's pool — in particular 0 for every tier in which it was awarded no
points. -/
theorem C2_amended_outer_join {α β γ δ : Type} (r : List (String × α))
    (b : List (String × β)) (c : List (String × γ)) (g : List (String × δ))
    (rows : List LBRow)
    (h : build_leaderboard (.ranked r) (.ranked b) (.ranked c) (.ranked g) = .ok rows)
    (s : String) :
    ((rows.filter (fun x => x.shop == s)).length =
      if s ∈ pool_shops r b c g 5 then 1 else 0) ∧
    (∀ row ∈ rows,
      row.top1 = (pool_shops r b c g 1).count row.shop ∧
      row.top3 = (pool_shops r b c g 3).count row.shop ∧
      row.top5 = (pool_shops r b c g 5).count row.shop) := by
  have hrows : rows = leaderboard_of (pool_shops r b c g 1) (pool_shops r b c g 3)
      (pool_shops r b c g 5) := by
    simpa [build_leaderboard] using h.symm
  subst hrows
  constructor
  · rw [length_filter_leaderboard_of]
    by_cases hmem : s ∈ pool_shops r b c g 5
    · rw [if_pos ((mem_pool_union_iff r b c g s).mpr hmem), if_pos hmem]
    · rw [if_neg (fun hc => hmem ((mem_pool_union_iff r b c g s).mp hc)), if_neg hmem]
  · intro row hrow
    obtain ⟨s', rfl⟩ := mem_leaderboard_of _ _ _ row hrow
    exact ⟨rfl, rfl, rfl⟩

/-- C2 (witness): the amended statement evaluated on the six-shop revenue
ranking at shop "B" (present in the top-5 window). -/
theorem C2_witness :
    (([(⟨"A", 1, 1, 1⟩ : LBRow), ⟨"B", 0, 1, 1⟩, ⟨"C", 0, 1, 1⟩, ⟨"D", 0, 0, 1⟩,
        ⟨"E", 0, 0, 1⟩].filter (fun x => x.shop == "B")).length =
      if "B" ∈ pool_shops [("A", some (6 : ℚ)), ("B", some 5), ("C", some 4), ("D", some 3),
          ("E", some 2), ("F", some 1)] ([] : List (String × Option ℚ))
          ([] : List (String × Option ℚ)) ([] : List (String × String)) 5 then 1 else 0) :=
  (C2_amended_outer_join [("A", some (6 : ℚ)), ("B", some 5), ("C", some 4), ("D", some 3),
      ("E", some 2), ("F", some 1)] ([] : List (String × Option ℚ))
      ([] : List (String × Option ℚ)) ([] : List (String × String))
      [⟨"A", 1, 1, 1⟩, ⟨"B", 0, 1, 1⟩, ⟨"C", 0, 1, 1⟩, ⟨"D", 0, 0, 1⟩, ⟨"E", 0, 0, 1⟩]
      (by decide) "B").1

/-- C6: leaderboard tiers are cumulative windows. Whenever
`build_leaderboard` succeeds, every row satisfies top1_count ≤ top3_count ≤
top5_count (each tier pool's appearance count is monotone in the window
size); and on four single-shop rankings with shop X ranked first everywhere,
the leaderboard is the single row (X, 4, 4, 4). -/
theorem C6_tier_monotone :
    (∀ {α β γ δ : Type} (rev : MetricDF α) (bay : MetricDF β) (cpdM : MetricDF γ)
        (gro : MetricDF δ) (rows : List LBRow),
      build_leaderboard rev bay cpdM gro = .ok rows →
      ∀ row ∈ rows, row.top1 ≤ row.top3 ∧ row.top3 ≤ row.top5) ∧
    build_leaderboard (MetricDF.ranked [("X", some (100 : ℚ))])
        (MetricDF.ranked [("X", some (5 : ℚ))]) (MetricDF.ranked [("X", some (7 : ℚ))])
        (MetricDF.ranked [("X", "12.5%")]) = .ok [⟨"X", 4, 4, 4⟩] := by
  constructor
  · intro α β γ δ rev bay cpdM gro rows h row hrow
    rcases rev with _ | r
    · simp [build_leaderboard] at h
    rcases bay with _ | b
    · simp [build_leaderboard] at h
    rcases cpdM with _ | c
    · simp [build_leaderboard] at h
    rcases gro with _ | g
    · simp [build_leaderboard] at h
    have hrows : rows = leaderboard_of (pool_shops r b c g 1) (pool_shops r b c g 3)
        (pool_shops r b c g 5) := by
      simpa [build_leaderboard] using h.symm
    subst hrows
    obtain ⟨s, rfl⟩ := mem_leaderboard_of _ _ _ row hrow
    exact ⟨count_pool_mono r b c g s (by norm_num), count_pool_mono r b c g s (by norm_num)⟩
  · decide

/-- C6 (witness): the monotonicity applied to the concrete single-shop-X
leaderboard row. -/
theorem C6_witness :
    (LBRow.mk "X" 4 4 4).top1 ≤ (LBRow.mk "X" 4 4 4).top3 ∧
    (LBRow.mk "X" 4 4 4).top3 ≤ (LBRow.mk "X" 4 4 4).top5 :=
  C6_tier_monotone.1 (MetricDF.ranked [("X", some (100 : ℚ))])
    (MetricDF.ranked [("X", some (5 : ℚ))]) (MetricDF.ranked [("X", some (7 : ℚ))])
    (MetricDF.ranked [("X", "12.5%")]) [⟨"X", 4, 4, 4⟩] (by decide)
    ⟨"X", 4, 4, 4⟩ (by decide)

/-- C7: whenever `build_leaderboard` succeeds, its rows are sorted by
top1_count, then top3_count, then top5_count, all descending (the `LBLe`
order), and the sort is stable: for every fixed count triple, the rows
carrying that triple appear exactly as they do in the unsorted outer join
(whose order is the shop-name-sorted index). -/
theorem C7_sort_stable {α β γ δ : Type} (r : List (String × α)) (b : List (String × β))
    (c : List (String × γ)) (g : List (String × δ)) (rows : List LBRow)
    (h : build_leaderboard (.ranked r) (.ranked b) (.ranked c) (.ranked g) = .ok rows) :
    List.Sorted LBLe rows ∧
    ∀ k1 k3 k5 : ℕ,
      rows.filter (fun x => x.top1 == k1 && x.top3 == k3 && x.top5 == k5) =
        (leaderboard_unsorted (pool_shops r b c g 1) (pool_shops r b c g 3)
            (pool_shops r b c g 5)).filter
          (fun x => x.top1 == k1 && x.top3 == k3 && x.top5 == k5) := by
  have hrows : rows = leaderboard_of (pool_shops r b c g 1) (pool_shops r b c g 3)
      (pool_shops r b c g 5) := by
    simpa [build_leaderboard] using h.symm
  subst hrows
  constructor
  · exact List.sorted_insertionSort LBLe _
  · intro k1 k3 k5
    exact filter_insertionSort LBLe _
      (fun a b ha hb => by
        simp only [Bool.and_eq_true, beq_iff_eq] at ha hb
        rw [LBLe_iff]
        omega) _

/-- C7 (witness): sortedness extracted from the theorem on a concrete
two-shop leaderboard. -/
theorem C7_witness :
    List.Sorted LBLe [(⟨"A", 1, 1, 1⟩ : LBRow), ⟨"B", 0, 1, 1⟩] :=
  (C7_sort_stable [("A", some (10 : ℚ)), ("B", some (5 : ℚ))]
    ([] : List (String × Option ℚ)) ([] : List (String × Option ℚ))
    ([] : List (String × String)) [⟨"A", 1, 1, 1⟩, ⟨"B", 0, 1, 1⟩] (by decide)).1

/-- C8: on every cleaned table, each aggregator emits exactly one row per
distinct shop of the table (for the guarded metrics: whenever the source
column exists in the schema), each row carrying the 2-decimal-rounded
NaN-skipping mean of that shop's cells, sorted in the metric's direction
(descending for revenue/CPD/growth, ascending for bay time; growth rows are
then rendered as display labels); and concretely, a cleaned table with shop A
at sales 100 and 120 and shop B at 50 yields revenue rows
[(A, 110.0), (B, 50.0)]. -/
theorem C8_aggregator_rows (t0 : RawTable) :
    (∃ out, analyze_highest_revenue (clean_and_process_kpi t0) = .ranked out ∧
      (∀ s : String, ((out.filter (fun p => p.1 == s)).length =
        if s ∈ (clean_and_process_kpi t0).rows.map RawRow.shop then 1 else 0)) ∧
      (∀ p ∈ out, p.2 = meanRound2 (groupVals (clean_and_process_kpi t0).rows
        (fun r => r.salesPerDay.asNum) p.1)) ∧
      List.Sorted DescLe out) ∧
    ((clean_and_process_kpi t0).hasBayTime = true →
      ∃ out, analyze_lowest_baytime (clean_and_process_kpi t0) = .ranked out ∧
      (∀ s : String, ((out.filter (fun p => p.1 == s)).length =
        if s ∈ (clean_and_process_kpi t0).rows.map RawRow.shop then 1 else 0)) ∧
      (∀ p ∈ out, p.2 = meanRound2 (groupVals (clean_and_process_kpi t0).rows
        RawRow.bayTime p.1)) ∧
      List.Sorted AscLe out) ∧
    ((clean_and_process_kpi t0).hasCPD = true →
      ∃ out, analyze_highest_cpd (clean_and_process_kpi t0) = .ranked out ∧
      (∀ s : String, ((out.filter (fun p => p.1 == s)).length =
        if s ∈ (clean_and_process_kpi t0).rows.map RawRow.shop then 1 else 0)) ∧
      (∀ p ∈ out, p.2 = meanRound2 (groupVals (clean_and_process_kpi t0).rows
        RawRow.cpd p.1)) ∧
      List.Sorted DescLe out) ∧
    ((clean_and_process_kpi t0).hasYoY = true →
      ∃ mout, (∀ s : String, ((mout.filter (fun p => p.1 == s)).length =
        if s ∈ (clean_and_process_kpi t0).rows.map RawRow.shop then 1 else 0)) ∧
      (∀ p ∈ mout, p.2 = meanRound2 (groupVals (clean_and_process_kpi t0).rows
        (fun r => r.netSalesYoY.asNum) p.1)) ∧
      List.Sorted DescLe mout ∧
      analyze_highest_growth (clean_and_process_kpi t0) =
        .ranked (mout.map (fun p => (p.1, valueStr p.2 ++ "%")))) ∧
    analyze_highest_revenue (clean_and_process_kpi scenTable) =
      .ranked [("A", some (110 : ℚ)), ("B", some (50 : ℚ))] := by
  refine ⟨?_, fun hB => ?_, fun hC => ?_, fun hY => ?_, by decide⟩
  · refine ⟨_, rfl, ?_, ?_, ?_⟩
    · exact fun s => length_filter_sorted_groupMeanRound2 DescLe _ _ s
    · exact fun p hp => mem_sorted_groupMeanRound2 DescLe _ _ p hp
    · exact List.sorted_insertionSort DescLe _
  · refine ⟨List.insertionSort AscLe
        (groupMeanRound2 (clean_and_process_kpi t0).rows RawRow.bayTime), ?_, ?_, ?_, ?_⟩
    · simp [analyze_lowest_baytime, hB]
    · exact fun s => length_filter_sorted_groupMeanRound2 AscLe _ _ s
    · exact fun p hp => mem_sorted_groupMeanRound2 AscLe _ _ p hp
    · exact List.sorted_insertionSort AscLe _
  · refine ⟨List.insertionSort DescLe
        (groupMeanRound2 (clean_and_process_kpi t0).rows RawRow.cpd), ?_, ?_, ?_, ?_⟩
    · simp [analyze_highest_cpd, hC]
    · exact fun s => length_filter_sorted_groupMeanRound2 DescLe _ _ s
    · exact fun p hp => mem_sorted_groupMeanRound2 DescLe _ _ p hp
    · exact List.sorted_insertionSort DescLe _
  · refine ⟨List.insertionSort DescLe
        (groupMeanRound2 (clean_and_process_kpi t0).rows (fun r => r.netSalesYoY.asNum)),
        ?_, ?_, ?_, ?_⟩
    · exact fun s => length_filter_sorted_groupMeanRound2 DescLe _ _ s
    · exact fun p hp => mem_sorted_groupMeanRound2 DescLe _ _ p hp
    · exact List.sorted_insertionSort DescLe _
    · simp [analyze_highest_growth, hY]

/-- C8 (witness): the revenue scenario from the theorem, and the bay-time
guard discharged on a concrete table carrying every optional column. -/
theorem C8_witness :
    analyze_highest_revenue (clean_and_process_kpi scenTable) =
      .ranked [("A", some (110 : ℚ)), ("B", some (50 : ℚ))] ∧
    analyze_lowest_baytime (clean_and_process_kpi tableAll) ≠ MetricDF.unavailable := by
  constructor
  · exact (C8_aggregator_rows scenTable).2.2.2.2
  · obtain ⟨out, heq, -, -, -⟩ := (C8_aggregator_rows tableAll).2.1 rfl
    rw [heq]
    intro hc
    cases hc

end BusinessOps
